import Mathlib

/-!
Shallow embedding of `arduino-air-quality-monitor.ino` (IoT Air Quality
Monitor firmware for ESP8266).

Modelling conventions:
* C `float`/`double` values are idealised as rationals (`ℚ`); a NaN
  temperature / humidity reading is `none` of `Option ℚ`.
* `unsigned long` (32-bit on ESP8266) arithmetic is `Nat` reduced mod `2^32`;
  the unsigned subtraction `now - lastSensorMillis` is `wrapSub`.
* One iteration of `loop()` consumes a `LoopInput` (the value of `millis()`
  and the three sensor reads) and transforms the global `MonitorState`.
* The HTTP handlers are embedded as functions returning the (unchanged)
  global state together with the response body they pass to `server.send`.
* Arduino `String(float, digits)` formatting follows `Print::printFloat`:
  add `0.5 / 10^digits`, print the integer part, then emit `digits`
  fractional digits one by one.
-/

/-- `const unsigned long SENSOR_INTERVAL = 2000; // ms` -/
def SENSOR_INTERVAL : Nat := 2000

/-- `const unsigned long OLED_UPDATE_INTERVAL = 1000;` -/
def OLED_UPDATE_INTERVAL : Nat := 1000

/-- `const float ADC_MAX = 1023.0;` -/
def ADC_MAX : ℚ := 1023

/-- `const char *ap_ssid_prefix = "AQMonitor_";` -/
def ap_ssid_prefix : String := "AQMonitor_"

/-- `const char *ap_password = "change_me01";` -/
def ap_password : String := "change_me01"

/-- `uint16_t ap_channel = 6;` -/
def ap_channel : Nat := 6

/-- `2^32`, the modulus of `unsigned long` arithmetic on the ESP8266. -/
def U32 : Nat := 4294967296

/-- Unsigned 32-bit subtraction `a - b`, as evaluated by the C expression
`now - lastSensorMillis` on `unsigned long` operands. -/
def wrapSub (a b : Nat) : Nat :=
  (a % U32 + (U32 - b % U32)) % U32

/-- `float computeGasIndex(int raw)`, lines 183-197 of the source:
`normalized = raw / ADC_MAX`, `inverted = normalized`,
`idx = inverted * 300.0`, then clip below at 0 and above at 500. -/
def computeGasIndex (raw : Int) : ℚ :=
  let normalized : ℚ := (raw : ℚ) / ADC_MAX
  let inverted : ℚ := normalized
  let idx : ℚ := inverted * 300
  let idx1 : ℚ := if idx < 0 then 0 else idx
  let idx2 : ℚ := if idx1 > 500 then 500 else idx1
  idx2

/-- The global mutable state of the firmware (the `// ======= STATE =======`
block): the two timer stamps and the four last-known sensor values.
`lastTemp = none` models `lastTemp == NAN`. -/
structure MonitorState where
  lastSensorMillis : Nat
  lastOLEDMillis : Nat
  lastTemp : Option ℚ
  lastHum : Option ℚ
  lastMQRaw : Int
  lastGasIndex : ℚ
  deriving Repr, DecidableEq

/-- The initial values of the globals:
`lastSensorMillis = 0`, `lastOLEDMillis = 0`, `lastTemp = NAN`,
`lastHum = NAN`, `lastMQRaw = 0`, `lastGasIndex = 0.0`. -/
def initialState : MonitorState :=
  { lastSensorMillis := 0, lastOLEDMillis := 0, lastTemp := none,
    lastHum := none, lastMQRaw := 0, lastGasIndex := 0 }

/-- The environment values consumed by one `loop()` iteration: `millis()`,
`dht.readTemperature()` (`none` = NaN), `dht.readHumidity()` (`none` = NaN)
and `(int)readMQ()`. -/
structure LoopInput where
  now : Nat
  t : Option ℚ
  h : Option ℚ
  mq : Int
  deriving Repr, DecidableEq

/-- The sensor-interval guard `now - lastSensorMillis >= SENSOR_INTERVAL`
of `loop()`. -/
def sensorFired (inp : LoopInput) (s : MonitorState) : Bool :=
  decide (SENSOR_INTERVAL ≤ wrapSub inp.now s.lastSensorMillis)

/-- One iteration of `loop()` (lines 105-139), restricted to its effect on
the global state.  `server.handleClient()` does not write the state (see
`handleRoot` / `handleData`); the OLED branch only repaints the display and
stamps `lastOLEDMillis`. -/
def loopStep (inp : LoopInput) (s : MonitorState) : MonitorState :=
  let s1 :=
    if SENSOR_INTERVAL ≤ wrapSub inp.now s.lastSensorMillis then
      { s with
        lastSensorMillis := inp.now % U32,
        lastTemp := (match inp.t with | some v => some v | none => s.lastTemp),
        lastHum := (match inp.h with | some v => some v | none => s.lastHum),
        lastMQRaw := inp.mq,
        lastGasIndex := computeGasIndex inp.mq }
    else s
  if OLED_UPDATE_INTERVAL ≤ wrapSub inp.now s1.lastOLEDMillis then
    { s1 with lastOLEDMillis := inp.now % U32 }
  else s1

/-- Run `loop()` once per element of the trace, starting from `s`. -/
def runFrom (s : MonitorState) : List LoopInput → MonitorState
  | [] => s
  | inp :: rest => runFrom (loopStep inp s) rest

/-- Run `loop()` over a trace from the boot state. -/
def run (trace : List LoopInput) : MonitorState :=
  runFrom initialState trace

/-- The sensor-interval guard stays false throughout a trace started at `s`. -/
def noSensorFire (s : MonitorState) : List LoopInput → Bool
  | [] => true
  | inp :: rest => !sensorFired inp s && noSensorFire (loopStep inp s) rest

/-- The fractional-digit loop of `Print::printFloat`: repeatedly multiply the
remainder by 10 and print the integer digit (`(unsigned int)remainder`; the
remainder is non-negative there, so the C truncation is `Nat.floor`). -/
def fracDigits : Nat → ℚ → String
  | 0, _ => ""
  | Nat.succ k, rem =>
    let rem10 : ℚ := rem * 10
    let d : Nat := ⌊rem10⌋₊
    toString d ++ fracDigits k (rem10 - (d : ℚ))

/-- `Print::printFloat` on a non-negative value: add the rounding term
`0.5 / 10^digits`, print the integer part (`(unsigned long)number`, a
`Nat.floor` on the non-negative values that reach it), a dot when
`digits > 0`, and the fractional digits. -/
def fmtFloatAbs (q : ℚ) (digits : Nat) : String :=
  let rounded : ℚ := q + 1 / (2 * 10 ^ digits)
  let ip : Nat := ⌊rounded⌋₊
  let rem : ℚ := rounded - (ip : ℚ)
  toString ip ++ (if digits = 0 then "" else "." ++ fracDigits digits rem)

/-- Arduino `String(value, digits)` for a (non-NaN) float `value`. -/
def fmtFloat (q : ℚ) (digits : Nat) : String :=
  if q < 0 then "-" ++ fmtFloatAbs (-q) digits else fmtFloatAbs q digits

/-- `void handleData()` (lines 164-173): builds the JSON body and passes it
to `server.send`; returned as (state after the call, response body).
`nowMs` is the value of the `millis()` call on line 170. -/
def handleData (s : MonitorState) (nowMs : Nat) : MonitorState × String :=
  let json :=
    "\x7b" ++
    "\"temperature\":" ++
      (match s.lastTemp with | none => "null" | some v => fmtFloat v 2) ++ "," ++
    "\"humidity\":" ++
      (match s.lastHum with | none => "null" | some v => fmtFloat v 2) ++ "," ++
    "\"mq_raw\":" ++ toString s.lastMQRaw ++ "," ++
    "\"aq_index\":" ++ fmtFloat s.lastGasIndex 2 ++ "," ++
    "\"time_ms\":" ++ toString (nowMs % U32) ++
    "\x7d"
  (s, json)

/-- The `/data` wire format as the spec writes it, for comparison with
`handleData`: the five keys in order, `temperature` / `humidity` as a float
with 2 decimals or the literal `null` when no valid reading was ever
recorded, `mq_raw` and `time_ms` as integers, `aq_index` as a float with
2 decimals. -/
def specDataBody (s : MonitorState) (nowMs : Nat) : String :=
  "\x7b\"temperature\":" ++
    (match s.lastTemp with | none => "null" | some v => fmtFloat v 2) ++
  ",\"humidity\":" ++
    (match s.lastHum with | none => "null" | some v => fmtFloat v 2) ++
  ",\"mq_raw\":" ++ toString s.lastMQRaw ++
  ",\"aq_index\":" ++ fmtFloat s.lastGasIndex 2 ++
  ",\"time_ms\":" ++ toString (nowMs % U32) ++ "\x7d"

/-- `void handleRoot()` (lines 142-162): builds the HTML status page and
passes it to `server.send`; `apIP` is `WiFi.softAPIP().toString()`. -/
def handleRoot (s : MonitorState) (apIP : String) : MonitorState × String :=
  let html :=
    "<!DOCTYPE html><html><head><meta charset='utf-8'><meta name='viewport' content='width=device-width,initial-scale=1'>" ++
    "<title>AQ Monitor</title>" ++
    "<style>body\x7bfont-family:Arial,Helvetica,sans-serif;padding:12px\x7d .card\x7bpadding:10px;border-radius:8px;background:#f2f2f2;margin-bottom:8px\x7d</style>" ++
    "<meta http-equiv='refresh' content='5'>" ++
    "</head><body>" ++
    "<h2>IoT Air Quality Monitor</h2>" ++
    "<div class='card'><b>Temperature:</b> " ++
    (match s.lastTemp with
     | none => "N/A"
     | some v => fmtFloat v 1 ++ " Â°C") ++
    "</div>" ++
    "<div class='card'><b>Humidity:</b> " ++
    (match s.lastHum with
     | none => "N/A"
     | some v => fmtFloat v 1 ++ " %") ++
    "</div>" ++
    "<div class='card'><b>MQ-135 raw:</b> " ++ toString s.lastMQRaw ++ "</div>" ++
    "<div class='card'><b>Estimated AQI-like index:</b> " ++ fmtFloat s.lastGasIndex 0 ++ " (lower better)</div>" ++
    "<p><a href='/data'>Get JSON</a></p>" ++
    "<p>Connect your phone to WiFi: <b>" ++ ap_ssid_prefix ++ apIP ++ "</b></p>" ++
    "</body></html>"
  (s, html)

/-- Arduino `String(value, HEX)`: lowercase hexadecimal digits. -/
def hexString (n : Nat) : String :=
  ⟨Nat.toDigits 16 n⟩

/-- The SSID built on line 203: `String(ap_ssid_prefix) + String(id & 0xFFFF, HEX)`. -/
def apSSID (chipId : Nat) : String :=
  ap_ssid_prefix ++ hexString (chipId % U32 &&& 0xFFFF)

/-- The observable outcome of `WiFi.softAP(ssid, password, channel)`:
`password = none` models passing `NULL` (open network). -/
structure APCall where
  ssid : String
  password : Option String
  channel : Nat
  deriving Repr, DecidableEq

/-- `void startAP()` (lines 200-215), abstracted over the chip id and the
configured password: if `strlen(password) >= 8` start a protected AP,
otherwise pass `NULL` (open network), same SSID and channel either way. -/
def startAP (chipId : Nat) (password : String) : APCall :=
  let ssid := apSSID chipId
  if 8 ≤ password.utf8ByteSize then
    { ssid := ssid, password := some password, channel := ap_channel }
  else
    { ssid := ssid, password := none, channel := ap_channel }

/-! ## Helper lemmas -/

/-- The clip branches of `computeGasIndex` are inactive on `[0, 1023]`:
the function evaluates to the unclipped linear map there. -/
theorem computeGasIndex_in_range (r : Int) (h0 : 0 ≤ r) (h1 : r ≤ 1023) :
    computeGasIndex r = (r : ℚ) / 1023 * 300 := by
  have hr0 : (0 : ℚ) ≤ (r : ℚ) := by exact_mod_cast h0
  have hr1 : (r : ℚ) ≤ 1023 := by exact_mod_cast h1
  simp only [computeGasIndex, ADC_MAX]
  have hx0 : (0 : ℚ) ≤ (r : ℚ) / 1023 * 300 := by positivity
  rw [if_neg (not_lt.mpr hx0)]
  have hx5 : ¬ (500 : ℚ) < (r : ℚ) / 1023 * 300 := by
    push_neg
    rw [div_mul_eq_mul_div, div_le_iff (by norm_num : (0 : ℚ) < 1023)]
    linarith
  rw [if_neg hx5]

/-- `computeGasIndex 0 = 0`. -/
theorem computeGasIndex_zero : computeGasIndex 0 = 0 := by
  norm_num [computeGasIndex, ADC_MAX]

/-- Unfolding `fracDigits` at 2 digits. -/
theorem fracDigits_two (rem : ℚ) :
    fracDigits 2 rem =
      toString ⌊rem * 10⌋₊ ++
        (toString ⌊(rem * 10 - (⌊rem * 10⌋₊ : ℚ)) * 10⌋₊ ++ "") := rfl

/-- Unfolding `fmtFloatAbs` at 2 digits. -/
theorem fmtFloatAbs_two (q : ℚ) :
    fmtFloatAbs q 2 =
      toString ⌊q + 1 / (2 * 10 ^ 2)⌋₊ ++
        ("." ++ fracDigits 2 (q + 1 / (2 * 10 ^ 2) - (⌊q + 1 / (2 * 10 ^ 2)⌋₊ : ℚ))) := rfl

/-- Evaluation scheme for `String(value, 2)`: a non-negative value whose
half-up rounding to hundredths reads `n.d1 d2` prints as such. -/
theorem fmtFloat_two_eq (q : ℚ) (n d1 d2 : Nat)
    (hq : 0 ≤ q) (hd1 : d1 < 10) (hd2 : d2 < 10)
    (hlo : (n : ℚ) + (d1 : ℚ) / 10 + (d2 : ℚ) / 100 ≤ q + 1 / 200)
    (hhi : q + 1 / 200 < (n : ℚ) + (d1 : ℚ) / 10 + (d2 : ℚ) / 100 + 1 / 100) :
    fmtFloat q 2 = toString n ++ ("." ++ (toString d1 ++ (toString d2 ++ ""))) := by
  have hc : (1 : ℚ) / (2 * 10 ^ 2) = 1 / 200 := by norm_num
  have hd10 : (0 : ℚ) ≤ (d1 : ℚ) := Nat.cast_nonneg d1
  have hd20 : (0 : ℚ) ≤ (d2 : ℚ) := Nat.cast_nonneg d2
  have hd1q : (d1 : ℚ) ≤ 9 := by exact_mod_cast Nat.lt_succ_iff.mp hd1
  have hd2q : (d2 : ℚ) ≤ 9 := by exact_mod_cast Nat.lt_succ_iff.mp hd2
  have hq0 : ¬ q < 0 := not_lt.mpr hq
  have hr0 : (0 : ℚ) ≤ q + 1 / (2 * 10 ^ 2) := by rw [hc]; linarith
  have hip : ⌊q + 1 / (2 * 10 ^ 2)⌋₊ = n := by
    rw [Nat.floor_eq_iff hr0, hc]
    constructor <;> push_cast <;> linarith
  have h1 : ⌊(q + 1 / (2 * 10 ^ 2) - (n : ℚ)) * 10⌋₊ = d1 := by
    rw [Nat.floor_eq_iff (by rw [hc]; linarith), hc]
    constructor <;> push_cast <;> linarith
  have h2 : ⌊((q + 1 / (2 * 10 ^ 2) - (n : ℚ)) * 10 - (d1 : ℚ)) * 10⌋₊ = d2 := by
    rw [Nat.floor_eq_iff (by rw [hc]; linarith), hc]
    constructor <;> push_cast <;> linarith
  rw [fmtFloat, if_neg hq0, fmtFloatAbs_two, hip, fracDigits_two, h1, h2]

/-- On a sensor-interval tick every state field written by the sensor branch
of `loop()` takes the value the branch assigns. -/
theorem loopStep_fire_fields (inp : LoopInput) (s : MonitorState)
    (hfire : SENSOR_INTERVAL ≤ wrapSub inp.now s.lastSensorMillis) :
    (loopStep inp s).lastTemp
        = (match inp.t with | some v => some v | none => s.lastTemp) ∧
    (loopStep inp s).lastHum
        = (match inp.h with | some v => some v | none => s.lastHum) ∧
    (loopStep inp s).lastMQRaw = inp.mq ∧
    (loopStep inp s).lastGasIndex = computeGasIndex inp.mq ∧
    (loopStep inp s).lastSensorMillis = inp.now % U32 := by
  simp only [loopStep]
  rw [if_pos hfire]
  split <;> exact ⟨rfl, rfl, rfl, rfl, rfl⟩

/-- An iteration whose sensor guard is false leaves the sensor-owned fields
unchanged. -/
theorem loopStep_noFire_fields (inp : LoopInput) (s : MonitorState)
    (hno : sensorFired inp s = false) :
    (loopStep inp s).lastTemp = s.lastTemp ∧
    (loopStep inp s).lastHum = s.lastHum ∧
    (loopStep inp s).lastMQRaw = s.lastMQRaw ∧
    (loopStep inp s).lastGasIndex = s.lastGasIndex ∧
    (loopStep inp s).lastSensorMillis = s.lastSensorMillis := by
  have h : ¬ SENSOR_INTERVAL ≤ wrapSub inp.now s.lastSensorMillis :=
    of_decide_eq_false hno
  simp only [loopStep]
  rw [if_neg h]
  split <;> exact ⟨rfl, rfl, rfl, rfl, rfl⟩

/-- A sensor-interval tick preserves the invariant that `lastGasIndex` is
`computeGasIndex` of `lastMQRaw`. -/
theorem loopStep_preserves_gasInv (inp : LoopInput) (s : MonitorState)
    (h : s.lastGasIndex = computeGasIndex s.lastMQRaw) :
    (loopStep inp s).lastGasIndex = computeGasIndex (loopStep inp s).lastMQRaw := by
  by_cases hf : sensorFired inp s = true
  · obtain ⟨-, -, hmq, hgi, -⟩ :=
      loopStep_fire_fields inp s (of_decide_eq_true hf)
    rw [hmq, hgi]
  · obtain ⟨-, -, hmq, hgi, -⟩ :=
      loopStep_noFire_fields inp s (Bool.not_eq_true _ ▸ hf)
    rw [hmq, hgi, h]

/-- The gas-index invariant propagates along any trace. -/
theorem runFrom_gasInv (trace : List LoopInput) : ∀ s : MonitorState,
    s.lastGasIndex = computeGasIndex s.lastMQRaw →
    (runFrom s trace).lastGasIndex = computeGasIndex (runFrom s trace).lastMQRaw := by
  induction trace with
  | nil => exact fun s h => h
  | cons inp rest ih =>
      exact fun s h => ih (loopStep inp s) (loopStep_preserves_gasInv inp s h)

/-! ## Claims -/

/-- C1: for every integer `raw`, `computeGasIndex raw` equals the reference
`clamp (raw / 1023 * 300) 0 500`; in particular `computeGasIndex 0 = 0`,
`computeGasIndex 1023 = 300` and `computeGasIndex 2000 = 500`. -/
theorem computeGasIndex_matches_reference :
    (∀ raw : Int, computeGasIndex raw = max 0 (min 500 ((raw : ℚ) / 1023 * 300))) ∧
    computeGasIndex 0 = 0 ∧
    computeGasIndex 1023 = 300 ∧
    computeGasIndex 2000 = 500 := by
  refine ⟨?_, computeGasIndex_zero, ?_, ?_⟩
  · intro raw
    simp only [computeGasIndex, ADC_MAX]
    rcases lt_or_le ((raw : ℚ) / 1023 * 300) 0 with h | h
    · rw [if_pos h, if_neg (by norm_num), min_eq_right (by linarith),
        max_eq_left (le_of_lt h)]
    · rw [if_neg (not_lt.mpr h)]
      rcases lt_or_le (500 : ℚ) ((raw : ℚ) / 1023 * 300) with h5 | h5
      · rw [if_pos h5, min_eq_left (le_of_lt h5), max_eq_right (by norm_num)]
      · rw [if_neg (not_lt.mpr h5), min_eq_right h5, max_eq_right h]
  · norm_num [computeGasIndex, ADC_MAX]
  · norm_num [computeGasIndex, ADC_MAX]

/-- C6: on `[0, 1023]` the gas index is non-decreasing, equals the unclipped
linear map (so neither clip bound is hit), and lies in `[0, 300]`. -/
theorem computeGasIndex_monotone_bounded :
    (∀ r1 r2 : Int, 0 ≤ r1 → r1 ≤ r2 → r2 ≤ 1023 →
      computeGasIndex r1 ≤ computeGasIndex r2) ∧
    (∀ r : Int, 0 ≤ r → r ≤ 1023 →
      computeGasIndex r = (r : ℚ) / 1023 * 300 ∧
      0 ≤ computeGasIndex r ∧ computeGasIndex r ≤ 300) := by
  have key : ∀ r : Int, 0 ≤ r → r ≤ 1023 →
      computeGasIndex r = (r : ℚ) / 1023 * 300 ∧
      0 ≤ computeGasIndex r ∧ computeGasIndex r ≤ 300 := by
    intro r h0 h1
    have hr0 : (0 : ℚ) ≤ (r : ℚ) := by exact_mod_cast h0
    have hr1 : (r : ℚ) ≤ 1023 := by exact_mod_cast h1
    have heq := computeGasIndex_in_range r h0 h1
    refine ⟨heq, ?_, ?_⟩
    · rw [heq]; positivity
    · rw [heq, div_mul_eq_mul_div, div_le_iff (by norm_num : (0 : ℚ) < 1023)]
      linarith
  refine ⟨?_, key⟩
  intro r1 r2 h0 h12 h2
  rw [computeGasIndex_in_range r1 h0 (le_trans h12 h2),
    computeGasIndex_in_range r2 (le_trans h0 h12) h2]
  have : (r1 : ℚ) ≤ (r2 : ℚ) := by exact_mod_cast h12
  gcongr

/-- C6 witness. -/
theorem computeGasIndex_monotone_bounded_witness :
    computeGasIndex 100 ≤ computeGasIndex 1000 ∧
    computeGasIndex 512 = (512 : ℚ) / 1023 * 300 :=
  ⟨computeGasIndex_monotone_bounded.1 100 1000 (by decide) (by decide) (by decide),
   (computeGasIndex_monotone_bounded.2 512 (by decide) (by decide)).1⟩

/-- C2: on a sensor-interval tick, a NaN temperature or humidity reading
leaves the stored field unchanged while a valid reading overwrites it, each
field independently of the other. -/
theorem sensorTick_retention (inp : LoopInput) (s : MonitorState)
    (hfire : SENSOR_INTERVAL ≤ wrapSub inp.now s.lastSensorMillis) :
    (inp.t = none → (loopStep inp s).lastTemp = s.lastTemp) ∧
    (∀ v : ℚ, inp.t = some v → (loopStep inp s).lastTemp = some v) ∧
    (inp.h = none → (loopStep inp s).lastHum = s.lastHum) ∧
    (∀ v : ℚ, inp.h = some v → (loopStep inp s).lastHum = some v) := by
  obtain ⟨ht, hh, -, -, -⟩ := loopStep_fire_fields inp s hfire
  refine ⟨fun h0 => ?_, fun v hv => ?_, fun h0 => ?_, fun v hv => ?_⟩
  · rw [ht, h0]
  · rw [ht, hv]
  · rw [hh, h0]
  · rw [hh, hv]

/-- C2 witness. -/
theorem sensorTick_retention_witness :
    (loopStep ⟨2000, none, some 5, 321⟩ initialState).lastTemp
        = initialState.lastTemp ∧
    (loopStep ⟨2000, none, some 5, 321⟩ initialState).lastHum = some 5 :=
  ⟨(sensorTick_retention ⟨2000, none, some 5, 321⟩ initialState (by decide)).1 rfl,
   (sensorTick_retention ⟨2000, none, some 5, 321⟩ initialState
      (by decide)).2.2.2 5 rfl⟩

/-- C3: a sensor-interval tick unconditionally overwrites `lastMQRaw` with
the new sample and sets `lastGasIndex = computeGasIndex` of it, and in every
reachable state of the loop `lastGasIndex` is a pure function of the most
recent `lastMQRaw`. -/
theorem gasIndex_pure_function :
    (∀ (inp : LoopInput) (s : MonitorState),
      SENSOR_INTERVAL ≤ wrapSub inp.now s.lastSensorMillis →
      (loopStep inp s).lastMQRaw = inp.mq ∧
      (loopStep inp s).lastGasIndex = computeGasIndex inp.mq) ∧
    (∀ trace : List LoopInput,
      (run trace).lastGasIndex = computeGasIndex (run trace).lastMQRaw) := by
  constructor
  · intro inp s hfire
    obtain ⟨-, -, hmq, hgi, -⟩ := loopStep_fire_fields inp s hfire
    exact ⟨hmq, hgi⟩
  · intro trace
    exact runFrom_gasInv trace initialState computeGasIndex_zero.symm

/-- C3 witness. -/
theorem gasIndex_pure_function_witness :
    (loopStep ⟨2000, none, none, 512⟩ initialState).lastMQRaw = 512 ∧
    (loopStep ⟨2000, none, none, 512⟩ initialState).lastGasIndex
        = computeGasIndex 512 ∧
    (run [⟨2000, none, none, 512⟩]).lastGasIndex
        = computeGasIndex (run [⟨2000, none, none, 512⟩]).lastMQRaw :=
  ⟨(gasIndex_pure_function.1 ⟨2000, none, none, 512⟩ initialState (by decide)).1,
   (gasIndex_pure_function.1 ⟨2000, none, none, 512⟩ initialState (by decide)).2,
   gasIndex_pure_function.2 [⟨2000, none, none, 512⟩]⟩

/-- A fire-free trace leaves `lastSensorMillis` untouched. -/
theorem runFrom_noFire_lastSensorMillis (mid : List LoopInput) :
    ∀ s : MonitorState, noSensorFire s mid = true →
      (runFrom s mid).lastSensorMillis = s.lastSensorMillis := by
  induction mid with
  | nil => exact fun s _ => rfl
  | cons inp rest ih =>
      intro s hno
      rw [noSensorFire, Bool.and_eq_true, Bool.not_eq_true'] at hno
      obtain ⟨-, -, -, -, hms⟩ := loopStep_noFire_fields inp s hno.1
      rw [runFrom, ih (loopStep inp s) hno.2, hms]

/-- C4: the sensor action fires exactly when the (32-bit) elapsed time since
the previous fire is at least `SENSOR_INTERVAL`, and between one fire and the
next fire the elapsed time is therefore at least 2000 ms. -/
theorem sensor_interval_gate :
    (∀ (inp : LoopInput) (s : MonitorState),
      sensorFired inp s = true ↔
        SENSOR_INTERVAL ≤ wrapSub inp.now s.lastSensorMillis) ∧
    (∀ (s : MonitorState) (inp1 : LoopInput) (mid : List LoopInput)
        (inp2 : LoopInput),
      sensorFired inp1 s = true →
      noSensorFire (loopStep inp1 s) mid = true →
      sensorFired inp2 (runFrom (loopStep inp1 s) mid) = true →
      SENSOR_INTERVAL ≤ wrapSub inp2.now (inp1.now % U32)) := by
  constructor
  · exact fun inp s => decide_eq_true_iff
  · intro s inp1 mid inp2 h1 hmid h2
    obtain ⟨-, -, -, -, hms⟩ :=
      loopStep_fire_fields inp1 s (of_decide_eq_true h1)
    have hpre := runFrom_noFire_lastSensorMillis mid (loopStep inp1 s) hmid
    have := of_decide_eq_true h2
    rwa [hpre, hms] at this

/-- C4 witness: fire at 2000 ms, no fire at 3000 ms, next fire at 4000 ms. -/
theorem sensor_interval_gate_witness :
    SENSOR_INTERVAL ≤ wrapSub 4000 (2000 % U32) ∧
    (sensorFired ⟨2000, none, none, 7⟩ initialState = true ↔
      SENSOR_INTERVAL ≤ wrapSub 2000 initialState.lastSensorMillis) :=
  ⟨sensor_interval_gate.2 initialState ⟨2000, none, none, 7⟩
      [⟨3000, none, none, 8⟩] ⟨4000, none, none, 9⟩
      (by decide) (by decide) (by decide),
   sensor_interval_gate.1 ⟨2000, none, none, 7⟩ initialState⟩

/-- C7: neither HTTP handler modifies the monitor state; each only reads it
to build its response body. -/
theorem handlers_read_only :
    ∀ (s : MonitorState) (nowMs : Nat) (apIP : String),
      (handleRoot s apIP).1 = s ∧ (handleData s nowMs).1 = s :=
  fun _ _ _ => ⟨rfl, rfl⟩

/-- C8: a configured password shorter than 8 bytes degrades `startAP` to an
open network (NULL password) with the same SSID and channel; a password of
8 bytes or more is used as given. -/
theorem startAP_password_fallback :
    ∀ (chipId : Nat) (pw : String),
      (startAP chipId pw).ssid = apSSID chipId ∧
      (startAP chipId pw).channel = ap_channel ∧
      (pw.utf8ByteSize < 8 → (startAP chipId pw).password = none) ∧
      (8 ≤ pw.utf8ByteSize → (startAP chipId pw).password = some pw) := by
  intro chipId pw
  simp only [startAP]
  split_ifs with h
  · exact ⟨rfl, rfl, fun hlt => absurd h (by omega), fun _ => rfl⟩
  · exact ⟨rfl, rfl, fun _ => rfl, fun hge => absurd hge h⟩

/-- C8 witness: the 5-byte password "short" yields an open AP, the
configured 11-byte `ap_password` is used as given. -/
theorem startAP_password_fallback_witness :
    (startAP 4660 "short").password = none ∧
    (startAP 4660 ap_password).password = some ap_password :=
  ⟨(startAP_password_fallback 4660 "short").2.2.1 (by decide),
   (startAP_password_fallback 4660 ap_password).2.2.2 (by decide)⟩

/-- `String(25.5, 2)` prints "25.50". -/
theorem fmtFloat_25_5 : fmtFloat (51 / 2) 2 = "25.50" := by
  rw [fmtFloat_two_eq (51 / 2) 25 5 0 (by norm_num) (by norm_num) (by norm_num)
    (by norm_num) (by norm_num)]
  rfl

/-- `String(150.15, 2)` prints "150.15". -/
theorem fmtFloat_150_15 : fmtFloat (15015 / 100) 2 = "150.15" := by
  rw [fmtFloat_two_eq (15015 / 100) 150 1 5 (by norm_num) (by norm_num)
    (by norm_num) (by norm_num) (by norm_num)]
  rfl

/-- `String(0.0, 2)` prints "0.00". -/
theorem fmtFloat_0 : fmtFloat 0 2 = "0.00" := by
  rw [fmtFloat_two_eq 0 0 0 0 (by norm_num) (by norm_num) (by norm_num)
    (by norm_num) (by norm_num)]
  rfl

/-- C5: for every state, the `/data` body is exactly the spec's JSON object
with the five keys in order, a never-recorded temperature or humidity
printing as the literal `null` and a recorded one with two decimals; on the
spec's example state the body is the quoted string. -/
theorem handleData_body_format :
    (∀ (s : MonitorState) (nowMs : Nat),
      (handleData s nowMs).2 = specDataBody s nowMs) ∧
    (∀ nowMs : Nat,
      (handleData
        { lastSensorMillis := 0, lastOLEDMillis := 0, lastTemp := none,
          lastHum := some (51 / 2), lastMQRaw := 512,
          lastGasIndex := 15015 / 100 } nowMs).2 =
        "\x7b\"temperature\":null,\"humidity\":25.50,\"mq_raw\":512,\"aq_index\":150.15,\"time_ms\":"
          ++ toString (nowMs % U32) ++ "\x7d") := by
  constructor
  · intro s nowMs
    simp only [handleData, specDataBody, String.append_assoc]
    rfl
  · intro nowMs
    simp only [handleData, fmtFloat_25_5, fmtFloat_150_15]
    rfl

/-- C9: before any sensor tick `lastTemp` and `lastHum` are NaN while
`lastMQRaw` and `lastGasIndex` are 0, so a `/data` request served then
reports `null` for temperature and humidity but the concrete numbers `0`
and `0.00` for the gas fields. -/
theorem initial_state_serialization :
    initialState.lastTemp = none ∧ initialState.lastHum = none ∧
    initialState.lastMQRaw = 0 ∧ initialState.lastGasIndex = 0 ∧
    (∀ nowMs : Nat,
      (handleData initialState nowMs).2 =
        "\x7b\"temperature\":null,\"humidity\":null,\"mq_raw\":0,\"aq_index\":0.00,\"time_ms\":"
          ++ toString (nowMs % U32) ++ "\x7d") := by
  refine ⟨rfl, rfl, rfl, rfl, fun nowMs => ?_⟩
  simp only [handleData, initialState, fmtFloat_0]
  rfl

/-- C10: for true times `t0 ≤ t1` less than one full 32-bit wrap apart, the
unsigned 32-bit subtraction of the stored `millis()` values recovers the
true elapsed time exactly, so both interval guards decide correctly even
across a counter wraparound. -/
theorem wrap_elapsed_correct :
    ∀ t0 t1 : Nat, t0 ≤ t1 → t1 - t0 < U32 →
      wrapSub (t1 % U32) (t0 % U32) = t1 - t0 ∧
      (SENSOR_INTERVAL ≤ wrapSub (t1 % U32) (t0 % U32) ↔
        SENSOR_INTERVAL ≤ t1 - t0) ∧
      (OLED_UPDATE_INTERVAL ≤ wrapSub (t1 % U32) (t0 % U32) ↔
        OLED_UPDATE_INTERVAL ≤ t1 - t0) := by
  intro t0 t1 h1 h2
  have key : wrapSub (t1 % U32) (t0 % U32) = t1 - t0 := by
    simp only [wrapSub, U32] at h2 ⊢
    omega
  exact ⟨key, by rw [key], by rw [key]⟩

/-- C10 witness: a pair of true times straddling the 2^32 ms wraparound. -/
theorem wrap_elapsed_correct_witness :
    wrapSub (4294968796 % U32) (4294966296 % U32) = 4294968796 - 4294966296 ∧
    (SENSOR_INTERVAL ≤ wrapSub (4294968796 % U32) (4294966296 % U32) ↔
      SENSOR_INTERVAL ≤ 4294968796 - 4294966296) :=
  ⟨(wrap_elapsed_correct 4294966296 4294968796 (by decide) (by decide)).1,
   (wrap_elapsed_correct 4294966296 4294968796 (by decide) (by decide)).2.1⟩
